import Mathlib

/-!
Verification of the Apartment Society Management backend.

The data model and handlers below are a shallow embedding of `src/main.py`
and `src/schemas.py`.  MongoDB collections are modelled as Lean lists of
typed records; `find_one` is `List.find?`, `update_one` updates the first
match.  BSON datetimes are modelled as `Nat` timestamps.  The persistence
gateway (`database.py`: `create_document` / `get_documents`) is not part of
the provided sources; following the specification it inserts the record,
assigning an identifier and a creation timestamp, and `get_documents`
returns the records matching an equality filter.
-/

namespace Apt

/-- `schemas.py` `Reservation`: asset_name, start_time, end_time,
requested_by, status (default "pending"), purpose. -/
structure Reservation where
  asset_name : String
  start_time : Nat
  end_time : Nat
  requested_by : String
  status : String
  purpose : Option String
deriving DecidableEq, Repr

/-- The Mongo overlap predicate from `create_reservation` in `main.py`:
same `asset_name`, `start_time < r.end_time` and `end_time > r.start_time`. -/
def overlapsWith (r ex : Reservation) : Bool :=
  ex.asset_name == r.asset_name &&
    decide (ex.start_time < r.end_time) && decide (ex.end_time > r.start_time)

/-- `main.py` `create_reservation`: `find_one` an overlapping reservation for
the same asset; if found raise HTTP 409, otherwise persist the reservation
(`create_document` appends it to the collection). -/
def create_reservation (db : List Reservation) (r : Reservation) :
    Except Nat (List Reservation) :=
  match db.find? (overlapsWith r) with
  | some _ => Except.error 409
  | none => Except.ok (db ++ [r])

/-- A resident document as inserted by `login` in `main.py` (a raw dict with
name, email, apartment, role, share_contact; no phone key). -/
structure ResidentDoc where
  name : String
  email : String
  apartment : String
  role : String
  share_contact : Bool
deriving DecidableEq, Repr

/-- `main.py` `LoginPayload`: email (plain string — not `EmailStr`),
optional name and apartment. -/
structure LoginPayload where
  email : String
  name : Option String
  apartment : Option String
deriving DecidableEq, Repr

/-- `main.py` `login`: look up a resident by email; if absent insert
`{name: payload.name or email.split("@")[0], email, apartment or "",
role: "resident", share_contact: False}`.  Returns the new collection state
and the `{ok: True, email}` response. -/
def login (db : List ResidentDoc) (p : LoginPayload) :
    List ResidentDoc × (Bool × String) :=
  match db.find? (fun d => d.email == p.email) with
  | some _ => (db, (true, p.email))
  | none =>
      (db ++ [{ name := p.name.getD ((p.email.splitOn "@").headD "")
                email := p.email
                apartment := p.apartment.getD ""
                role := "resident"
                share_contact := false }],
       (true, p.email))

/-- Modelled from the spec: `EmailStr` validation (the `email-validator`
package used by `schemas.py` is not in the sources).  A well-formed address
has exactly one at-sign with a nonempty local part and a domain that is
nonempty and contains a dot. -/
def isValidEmail (s : String) : Bool :=
  let cs := s.toList
  cs.count '@' == 1 &&
    !(cs.takeWhile (fun c => c != '@')).isEmpty &&
    (let domain := (cs.dropWhile (fun c => c != '@')).tail
     !domain.isEmpty && domain.contains '.')

end Apt

namespace Apt

/-- C1 helper: the overlap condition as stated in the specification. -/
def specConflict (r ex : Reservation) : Prop :=
  ex.asset_name = r.asset_name ∧
    ex.start_time < r.end_time ∧ ex.end_time > r.start_time

instance (r ex : Reservation) : Decidable (specConflict r ex) := by
  unfold specConflict; infer_instance

theorem overlapsWith_iff (r ex : Reservation) :
    overlapsWith r ex = true ↔ specConflict r ex := by
  simp [overlapsWith, specConflict, and_assoc]

theorem find_overlap_eq_none_iff (db : List Reservation) (r : Reservation) :
    db.find? (overlapsWith r) = none ↔ ∀ ex ∈ db, ¬ specConflict r ex := by
  rw [List.find?_eq_none]
  constructor
  · intro h ex hex hc
    exact h ex hex ((overlapsWith_iff r ex).mpr hc)
  · intro h ex hex hb
    exact h ex hex ((overlapsWith_iff r ex).mp hb)

theorem create_reservation_error_iff (db : List Reservation)
    (r : Reservation) :
    create_reservation db r = Except.error 409 ↔
      ∃ ex ∈ db, specConflict r ex := by
  constructor
  · intro h
    unfold create_reservation at h
    cases hf : db.find? (overlapsWith r) with
    | none => rw [hf] at h; simp at h
    | some ex =>
        have hmem := List.mem_of_find?_eq_some hf
        have hprop := List.find?_some hf
        exact ⟨ex, hmem, (overlapsWith_iff r ex).mp hprop⟩
  · rintro ⟨ex, hex, hc⟩
    unfold create_reservation
    cases hf : db.find? (overlapsWith r) with
    | none =>
        exact absurd hc ((find_overlap_eq_none_iff db r).mp hf ex hex)
    | some _ => rfl

theorem create_reservation_ok_of_no_conflict (db : List Reservation)
    (r : Reservation) (hno : ¬ ∃ ex ∈ db, specConflict r ex) :
    create_reservation db r = Except.ok (db ++ [r]) := by
  unfold create_reservation
  have : db.find? (overlapsWith r) = none := by
    rw [find_overlap_eq_none_iff]
    intro ex hex hc
    exact hno ⟨ex, hex, hc⟩
  rw [this]

end Apt

/-- C1: `create_reservation` rejects a request with a 409 conflict iff some
existing reservation for the same asset satisfies
`existing.start_time < new.end_time ∧ existing.end_time > new.start_time`;
touching intervals are not conflicts, and with no conflict the reservation
is appended to the collection. -/
theorem Apt.create_reservation_conflict_iff
    (db : List Apt.Reservation) (r : Apt.Reservation) :
    (Apt.create_reservation db r = Except.error 409 ↔
      ∃ ex ∈ db, Apt.specConflict r ex) ∧
    ((¬ ∃ ex ∈ db, Apt.specConflict r ex) →
      Apt.create_reservation db r = Except.ok (db ++ [r])) ∧
    (∀ ex ∈ db, ex.end_time = r.start_time → ¬ Apt.specConflict r ex) := by
  refine ⟨Apt.create_reservation_error_iff db r,
    Apt.create_reservation_ok_of_no_conflict db r, ?_⟩
  intro ex _ htouch hc
  have := hc.2.2
  omega

/-- C1 witness: the gym example from the specification — with
[600,660) stored, [630,690) conflicts, [660,720) and [540,600) do not. -/
theorem Apt.create_reservation_conflict_iff_witness :
    (Apt.create_reservation
        [⟨"gym", 600, 660, "a", "pending", none⟩]
        ⟨"gym", 630, 690, "b", "pending", none⟩ = Except.error 409) ∧
    (Apt.create_reservation
        [⟨"gym", 600, 660, "a", "pending", none⟩]
        ⟨"gym", 660, 720, "b", "pending", none⟩ =
      Except.ok [⟨"gym", 600, 660, "a", "pending", none⟩,
                 ⟨"gym", 660, 720, "b", "pending", none⟩]) := by
  constructor
  · exact (Apt.create_reservation_conflict_iff
        [⟨"gym", 600, 660, "a", "pending", none⟩]
        ⟨"gym", 630, 690, "b", "pending", none⟩).1.mpr
      ⟨⟨"gym", 600, 660, "a", "pending", none⟩, by simp,
        by constructor <;> simp [Apt.specConflict]⟩
  · exact (Apt.create_reservation_conflict_iff
        [⟨"gym", 600, 660, "a", "pending", none⟩]
        ⟨"gym", 660, 720, "b", "pending", none⟩).2.1
      (by rintro ⟨ex, hex, hc⟩; simp at hex; subst hex
          exact absurd hc.2.2 (by simp [Apt.specConflict]))

/-- C9 helper: a reservation with only its status replaced. -/
def Apt.withStatus (s : String) (ex : Apt.Reservation) : Apt.Reservation :=
  { ex with status := s }

/-- C9: the conflict query in `create_reservation` filters only on
`asset_name` and the two time bounds, never on `status`: replacing every
stored reservation's status by any string (e.g. "cancelled" or "rejected")
leaves the conflict outcome unchanged, so an overlapping reservation blocks
a request whatever its status. -/
theorem Apt.create_reservation_ignores_status
    (db : List Apt.Reservation) (r : Apt.Reservation) (s : String) :
    (Apt.create_reservation (db.map (Apt.withStatus s)) r = Except.error 409 ↔
      Apt.create_reservation db r = Except.error 409) ∧
    (∀ ex ∈ db, Apt.specConflict r ex →
      Apt.create_reservation (db.map (Apt.withStatus s)) r = Except.error 409) := by
  have hconf : ∀ ex : Apt.Reservation,
      Apt.specConflict r (Apt.withStatus s ex) ↔ Apt.specConflict r ex := by
    intro ex; simp [Apt.specConflict, Apt.withStatus]
  constructor
  · rw [Apt.create_reservation_error_iff (db.map (Apt.withStatus s)) r,
        Apt.create_reservation_error_iff db r]
    constructor
    · rintro ⟨ex, hex, hc⟩
      rcases List.mem_map.mp hex with ⟨e, he, rfl⟩
      exact ⟨e, he, (hconf e).mp hc⟩
    · rintro ⟨ex, hex, hc⟩
      exact ⟨Apt.withStatus s ex, List.mem_map.mpr ⟨ex, hex, rfl⟩,
        (hconf ex).mpr hc⟩
  · intro ex hex hc
    exact (Apt.create_reservation_error_iff (db.map (Apt.withStatus s)) r).mpr
      ⟨Apt.withStatus s ex, List.mem_map.mpr ⟨ex, hex, rfl⟩, (hconf ex).mpr hc⟩

/-- C9 witness: a stored "cancelled" gym reservation [600,660) still causes
a 409 on the overlapping request [630,690). -/
theorem Apt.create_reservation_ignores_status_witness :
    Apt.create_reservation
        ([⟨"gym", 600, 660, "a", "pending", none⟩].map
          (Apt.withStatus "cancelled"))
        ⟨"gym", 630, 690, "b", "pending", none⟩ = Except.error 409 :=
  (Apt.create_reservation_ignores_status
      [⟨"gym", 600, 660, "a", "pending", none⟩]
      ⟨"gym", 630, 690, "b", "pending", none⟩ "cancelled").2
    ⟨"gym", 600, 660, "a", "pending", none⟩ (by simp)
    (by constructor <;> simp [Apt.specConflict])

/-- C3: `login` always answers `{ok: True, email}`; a second call with the
same email leaves the collection unchanged and returns the same ok response
(so no record is mutated and no duplicate is created — after a login the
number of residents with that email is `max 1` of what it was); when no
resident with the email exists, one is created with role "resident" and
`share_contact = false`. -/
theorem Apt.login_idempotent_props
    (db : List Apt.ResidentDoc) (p p2 : Apt.LoginPayload)
    (hpe : p2.email = p.email) :
    ((Apt.login db p).2 = (true, p.email)) ∧
    (Apt.login (Apt.login db p).1 p2 = ((Apt.login db p).1, (true, p.email))) ∧
    ((Apt.login db p).1.countP (fun d => d.email == p.email) =
      max 1 (db.countP (fun d => d.email == p.email))) ∧
    (db.find? (fun d => d.email == p.email) = none →
      (Apt.login db p).1 = db ++
        [⟨p.name.getD ((p.email.splitOn "@").headD ""), p.email,
          p.apartment.getD "", "resident", false⟩]) := by
  cases hf : db.find? (fun d => d.email == p.email) with
  | some d =>
      have hmem := List.mem_of_find?_eq_some hf
      have hpred := List.find?_some hf
      have hpos : 0 < db.countP (fun x => x.email == p.email) :=
        List.countP_pos_iff.mpr ⟨d, hmem, hpred⟩
      refine ⟨?_, ?_, ?_, ?_⟩
      · simp [Apt.login, hf]
      · simp [Apt.login, hf, hpe]
      · have hdb : (Apt.login db p).1 = db := by simp [Apt.login, hf]
        rw [hdb]
        omega
      · intro h
        exact Option.noConfusion h
  | none =>
      have hzero : db.countP (fun d => d.email == p.email) = 0 :=
        List.countP_eq_zero.mpr (List.find?_eq_none.mp hf)
      refine ⟨?_, ?_, ?_, ?_⟩
      · simp [Apt.login, hf]
      · simp [Apt.login, hf, hpe, List.find?_append]
      · simp [Apt.login, hf, List.countP_append, hzero]
      · intro _
        simp [Apt.login, hf]

/-- C3 witness: logging in twice with "bob@x.com" from an empty collection
changes nothing on the second call and returns the same ok response. -/
theorem Apt.login_idempotent_props_witness :
    Apt.login (Apt.login [] ⟨"bob@x.com", some "Bob", some "A-1"⟩).1
        ⟨"bob@x.com", none, none⟩ =
      ((Apt.login [] ⟨"bob@x.com", some "Bob", some "A-1"⟩).1,
        (true, "bob@x.com")) :=
  (Apt.login_idempotent_props [] ⟨"bob@x.com", some "Bob", some "A-1"⟩
      ⟨"bob@x.com", none, none⟩ rfl).2.1

/-- C6 counterexample: the claim "every persisted Resident has a valid
email" is false — `login` inserts the raw payload email, so logging in
with the at-sign-free string "frontdesk" persists a Resident whose email
is not well-formed. -/
theorem Apt.resident_email_validity_cex :
    Apt.isValidEmail "frontdesk" = false ∧
    ∃ d ∈ (Apt.login [] ⟨"frontdesk", some "Desk", none⟩).1,
      Apt.isValidEmail d.email = false := by
  refine ⟨by decide, ⟨"Desk", "frontdesk", "", "resident", false⟩,
    by simp [Apt.login], by decide⟩

/-- C6 (amended): `login` performs no email validation — every resident
record present after a login either was already stored or carries the
payload's email verbatim, well-formed or not (the `Resident` schema's
`EmailStr` check is bypassed because `login` inserts a raw dict and
`LoginPayload.email` is a plain string). -/
theorem Apt.login_email_unvalidated
    (db : List Apt.ResidentDoc) (p : Apt.LoginPayload) :
    ∀ d ∈ (Apt.login db p).1, d ∈ db ∨ d.email = p.email := by
  intro d hd
  cases hf : db.find? (fun x => x.email == p.email) with
  | some e =>
      simp only [Apt.login, hf] at hd
      exact Or.inl hd
  | none =>
      simp only [Apt.login, hf] at hd
      rcases List.mem_append.mp hd with h | h
      · exact Or.inl h
      · right
        rw [List.mem_singleton.mp h]

/-- C6 witness: the amended statement applied to the login that persists
the invalid email "frontdesk". -/
theorem Apt.login_email_unvalidated_witness :
    (⟨"Desk", "frontdesk", "", "resident", false⟩ : Apt.ResidentDoc) ∈
        ([] : List Apt.ResidentDoc) ∨
      (⟨"Desk", "frontdesk", "", "resident", false⟩ : Apt.ResidentDoc).email =
        "frontdesk" :=
  Apt.login_email_unvalidated [] ⟨"frontdesk", some "Desk", none⟩
    ⟨"Desk", "frontdesk", "", "resident", false⟩ (by simp [Apt.login])

/-- `schemas.py` `MaintenanceRequest`: required title, description,
requested_by; optional category, assigned_to, apartment, images;
status defaults to "open", priority to "medium" (both plain strings). -/
structure Apt.MaintenanceRequest where
  title : String
  description : String
  category : Option String
  status : String
  priority : String
  requested_by : String
  assigned_to : Option String
  apartment : Option String
  images : Option (List String)
deriving DecidableEq, Repr

/-- An untrusted creation payload for `MaintenanceRequest`: each field may
be present or absent.  (Pydantic also rejects wrong-typed values; the typed
embedding models field presence.) -/
structure Apt.MaintenanceInput where
  title : Option String
  description : Option String
  category : Option String
  status : Option String
  priority : Option String
  requested_by : Option String
  assigned_to : Option String
  apartment : Option String
  images : Option (List String)
deriving DecidableEq, Repr

/-- Pydantic construction of `MaintenanceRequest`: the required fields
(title, description, requested_by) must be present; absent optional fields
take their defaults.  The `status` and `priority` strings are NOT checked
against the enumerations in their `Field` descriptions. -/
def Apt.mkMaintenanceRequest (i : Apt.MaintenanceInput) :
    Option Apt.MaintenanceRequest :=
  match i.title, i.description, i.requested_by with
  | some t, some d, some rb =>
      some { title := t, description := d, category := i.category,
             status := i.status.getD "open",
             priority := i.priority.getD "medium",
             requested_by := rb, assigned_to := i.assigned_to,
             apartment := i.apartment, images := i.images }
  | _, _, _ => none

/-- The status enumeration of `update_ticket_status` in `main.py`
(`Query(..., pattern="^(open|in_progress|resolved|closed)$")`). -/
def Apt.allowedStatus (s : String) : Bool :=
  s == "open" || s == "in_progress" || s == "resolved" || s == "closed"

/-- A stored maintenance document: the validated model plus the
identifier and creation timestamp assigned by the persistence gateway
(modelled from the spec: `create_document` is not in the sources). -/
structure Apt.TicketDoc where
  id : String
  ticket : Apt.MaintenanceRequest
  created_at : Nat
  updated_at : Option Nat
deriving DecidableEq, Repr

/-- Modelled from the spec: `create_document("maintenancerequest", t)`
assigns an identifier and creation timestamp and inserts the record. -/
def Apt.create_document_ticket (db : List Apt.TicketDoc)
    (t : Apt.MaintenanceRequest) (newId : String) (now : Nat) :
    List Apt.TicketDoc :=
  db ++ [{ id := newId, ticket := t, created_at := now, updated_at := none }]

/-- `main.py` `create_ticket`: validate the payload as a
`MaintenanceRequest` (FastAPI returns a validation error and nothing is
persisted when construction fails), then persist it and return the id. -/
def Apt.create_ticket (db : List Apt.TicketDoc) (i : Apt.MaintenanceInput)
    (newId : String) (now : Nat) : Option (List Apt.TicketDoc × String) :=
  match Apt.mkMaintenanceRequest i with
  | none => none
  | some t => some (Apt.create_document_ticket db t newId now, newId)

/-- `main.py` `list_tickets`: optional equality filters on `status` and
`requested_by`. -/
def Apt.list_tickets (db : List Apt.TicketDoc)
    (status email : Option String) : List Apt.TicketDoc :=
  db.filter (fun d =>
    (match status with
     | none => true
     | some s => d.ticket.status == s) &&
    (match email with
     | none => true
     | some e => d.ticket.requested_by == e))

/-- A 24-character hexadecimal string, the only strings accepted by
`bson.ObjectId`; anything else raises `InvalidId`. -/
def Apt.isValidObjectId (s : String) : Bool :=
  s.length == 24 &&
    s.toList.all (fun c =>
      c.isDigit || ('a' ≤ c && c ≤ 'f') || ('A' ≤ c && c ≤ 'F'))

/-- Outcomes of `PATCH /maintenance/{ticket_id}/status`: FastAPI rejects a
status outside the regex before the handler runs; `bson.ObjectId` raises an
unhandled `InvalidId` on a malformed id; Mongo `update_one` matching
nothing yields 404; otherwise the first matching document is updated. -/
inductive Apt.UpdateOutcome where
  | invalidStatus
  | invalidId
  | notFound
  | ok
deriving DecidableEq, Repr

/-- Update the first element satisfying `p` (Mongo `update_one`). -/
def Apt.updateFirst (p : α → Bool) (f : α → α) : List α → List α
  | [] => []
  | x :: xs => if p x then f x :: xs else x :: Apt.updateFirst p f xs

/-- `main.py` `update_ticket_status`: validate the status query parameter,
construct the ObjectId, `update_one` on `_id` setting `status` and
`updated_at`, 404 when nothing matched. -/
def Apt.update_ticket_status (db : List Apt.TicketDoc) (tid s : String)
    (now : Nat) : Apt.UpdateOutcome × List Apt.TicketDoc :=
  if !Apt.allowedStatus s then (.invalidStatus, db)
  else if !Apt.isValidObjectId tid then (.invalidId, db)
  else match db.find? (fun d => d.id == tid) with
    | none => (.notFound, db)
    | some _ =>
        (.ok, Apt.updateFirst (fun d => d.id == tid)
          (fun d => { d with ticket := { d.ticket with status := s },
                             updated_at := some now }) db)

theorem Apt.updateFirst_exists_updated (p : α → Bool) (f : α → α)
    (l : List α) (hx : ∃ x ∈ l, p x) :
    ∃ x0, p x0 = true ∧ f x0 ∈ Apt.updateFirst p f l := by
  induction l with
  | nil => simp at hx
  | cons y ys ih =>
      by_cases hy : p y
      · exact ⟨y, hy, by simp [Apt.updateFirst, hy]⟩
      · rcases hx with ⟨x, hxm, hxp⟩
        rcases List.mem_cons.mp hxm with rfl | hxs
        · exact absurd hxp (by simp [hy])
        · rcases ih ⟨x, hxs, hxp⟩ with ⟨x0, hx0, hmem⟩
          exact ⟨x0, hx0, by simp [Apt.updateFirst, hy, hmem]⟩

/-- C5: for `update_ticket_status` — a well-formed id matching no stored
ticket yields not-found with the collection unchanged; a status outside
{open, in_progress, resolved, closed} is rejected before any write; and
updating an existing id to "resolved" makes a subsequent list (filtered on
status "resolved") show a ticket with that id and status "resolved". -/
theorem Apt.update_ticket_status_props (db : List Apt.TicketDoc)
    (tid s : String) (now : Nat) :
    (Apt.allowedStatus s = true → Apt.isValidObjectId tid = true →
      (∀ d ∈ db, ¬ d.id = tid) →
      Apt.update_ticket_status db tid s now = (.notFound, db)) ∧
    (Apt.allowedStatus s = false →
      Apt.update_ticket_status db tid s now = (.invalidStatus, db)) ∧
    (Apt.isValidObjectId tid = true → ∀ d ∈ db, d.id = tid →
      ∃ d2 ∈ Apt.list_tickets
          (Apt.update_ticket_status db tid "resolved" now).2
          (some "resolved") none,
        d2.id = tid ∧ d2.ticket.status = "resolved") := by
  refine ⟨?_, ?_, ?_⟩
  · intro hs hid hnone
    have hf : db.find? (fun d => d.id == tid) = none :=
      List.find?_eq_none.mpr (fun d hd => by simp [hnone d hd])
    simp [Apt.update_ticket_status, hs, hid, hf]
  · intro hs
    simp [Apt.update_ticket_status, hs]
  · intro hid d hd hdid
    have hres : Apt.allowedStatus "resolved" = true := by decide
    have hex : ∃ x ∈ db, (fun d => d.id == tid) x := ⟨d, hd, by simp [hdid]⟩
    rcases Apt.updateFirst_exists_updated (fun d => d.id == tid)
        (fun d => { d with ticket := { d.ticket with status := "resolved" },
                           updated_at := some now }) db hex with
      ⟨x0, hx0, hmem⟩
    have hfs : (db.find? (fun d => d.id == tid)).isSome := by
      rw [List.find?_isSome]
      exact ⟨d, hd, by simp [hdid]⟩
    have hupd : (Apt.update_ticket_status db tid "resolved" now).2 =
        Apt.updateFirst (fun d => d.id == tid)
          (fun d => { d with ticket := { d.ticket with status := "resolved" },
                             updated_at := some now }) db := by
      cases hf : db.find? (fun d => d.id == tid) with
      | none => rw [hf] at hfs; simp at hfs
      | some _ => simp [Apt.update_ticket_status, hres, hid, hf]
    refine ⟨{ x0 with ticket := { x0.ticket with status := "resolved" },
                      updated_at := some now }, ?_, by simpa using hx0, rfl⟩
    rw [hupd]
    exact List.mem_filter.mpr ⟨hmem, by simp⟩

/-- C5 witness: with one stored ticket, a fresh well-formed id is
not-found, the status "wontfix" is rejected with no write, and updating the
stored id to "resolved" surfaces it in the filtered list. -/
theorem Apt.update_ticket_status_props_witness :
    (Apt.update_ticket_status
        [⟨"0123456789abcdef01234567",
          ⟨"Leak", "Tap leaks", none, "open", "medium", "r@x.com",
            none, none, none⟩, 0, none⟩]
        "aaaaaaaaaaaaaaaaaaaaaaaa" "open" 5 =
      (.notFound,
        [⟨"0123456789abcdef01234567",
          ⟨"Leak", "Tap leaks", none, "open", "medium", "r@x.com",
            none, none, none⟩, 0, none⟩])) ∧
    (Apt.update_ticket_status
        [⟨"0123456789abcdef01234567",
          ⟨"Leak", "Tap leaks", none, "open", "medium", "r@x.com",
            none, none, none⟩, 0, none⟩]
        "0123456789abcdef01234567" "wontfix" 5 =
      (.invalidStatus,
        [⟨"0123456789abcdef01234567",
          ⟨"Leak", "Tap leaks", none, "open", "medium", "r@x.com",
            none, none, none⟩, 0, none⟩])) ∧
    (∃ d2 ∈ Apt.list_tickets
        (Apt.update_ticket_status
          [⟨"0123456789abcdef01234567",
            ⟨"Leak", "Tap leaks", none, "open", "medium", "r@x.com",
              none, none, none⟩, 0, none⟩]
          "0123456789abcdef01234567" "resolved" 5).2
        (some "resolved") none,
      d2.id = "0123456789abcdef01234567" ∧ d2.ticket.status = "resolved") := by
  refine ⟨?_, ?_, ?_⟩
  · exact (Apt.update_ticket_status_props _ _ _ 5).1 (by decide) (by decide)
      (by intro d hd; simp at hd; rw [hd]; decide)
  · exact (Apt.update_ticket_status_props _ _ _ 5).2.1 (by decide)
  · exact (Apt.update_ticket_status_props _ "0123456789abcdef01234567"
        "resolved" 5).2.2 (by decide)
      ⟨"0123456789abcdef01234567",
        ⟨"Leak", "Tap leaks", none, "open", "medium", "r@x.com",
          none, none, none⟩, 0, none⟩ (by simp) rfl

/-- C10: when the ticket id is not a 24-character hexadecimal string and
the status passed the query validation, `update_ticket_status` ends in the
unhandled `bson` `InvalidId` exception — not in the not-found response —
and the collection is unchanged (no storage write). -/
theorem Apt.update_ticket_status_invalid_id (db : List Apt.TicketDoc)
    (tid s : String) (now : Nat) (hs : Apt.allowedStatus s = true)
    (hid : Apt.isValidObjectId tid = false) :
    (Apt.update_ticket_status db tid s now).1 = .invalidId ∧
    (Apt.update_ticket_status db tid s now).1 ≠ .notFound ∧
    (Apt.update_ticket_status db tid s now).2 = db := by
  refine ⟨?_, ?_, ?_⟩ <;> simp [Apt.update_ticket_status, hs, hid]

/-- C10 witness: the malformed id "not-an-objectid" with the valid status
"open" on a one-ticket collection. -/
theorem Apt.update_ticket_status_invalid_id_witness :
    (Apt.update_ticket_status
        [⟨"0123456789abcdef01234567",
          ⟨"Leak", "Tap leaks", none, "open", "medium", "r@x.com",
            none, none, none⟩, 0, none⟩]
        "not-an-objectid" "open" 5).1 = .invalidId ∧
    (Apt.update_ticket_status
        [⟨"0123456789abcdef01234567",
          ⟨"Leak", "Tap leaks", none, "open", "medium", "r@x.com",
            none, none, none⟩, 0, none⟩]
        "not-an-objectid" "open" 5).1 ≠ .notFound ∧
    (Apt.update_ticket_status
        [⟨"0123456789abcdef01234567",
          ⟨"Leak", "Tap leaks", none, "open", "medium", "r@x.com",
            none, none, none⟩, 0, none⟩]
        "not-an-objectid" "open" 5).2 =
      [⟨"0123456789abcdef01234567",
        ⟨"Leak", "Tap leaks", none, "open", "medium", "r@x.com",
          none, none, none⟩, 0, none⟩] :=
  Apt.update_ticket_status_invalid_id _ "not-an-objectid" "open" 5
    (by decide) (by decide)

/-- C2 counterexample: the status "broken" is outside
{open, in_progress, resolved, closed}, yet `MaintenanceRequest`
construction succeeds (the enumerations appear only in `Field`
descriptions, which pydantic does not enforce on plain `str` fields) and
`create_ticket` persists the record — no validation error, a record is
created. -/
theorem Apt.enum_validation_cex :
    Apt.allowedStatus "broken" = false ∧
    Apt.mkMaintenanceRequest
        ⟨some "Leak", some "Tap leaks", none, some "broken", none,
          some "r@x.com", none, none, none⟩ =
      some ⟨"Leak", "Tap leaks", none, "broken", "medium", "r@x.com",
        none, none, none⟩ ∧
    Apt.create_ticket []
        ⟨some "Leak", some "Tap leaks", none, some "broken", none,
          some "r@x.com", none, none, none⟩
        "0123456789abcdef01234567" 0 =
      some ([⟨"0123456789abcdef01234567",
        ⟨"Leak", "Tap leaks", none, "broken", "medium", "r@x.com",
          none, none, none⟩, 0, none⟩], "0123456789abcdef01234567") := by
  refine ⟨by decide, rfl, rfl⟩

/-- C2 (amended): entity construction rejects only missing required fields
(and wrong-typed values); the enum-described string fields are not
constrained — any status string, in the allowed set or not, is accepted
and the record is persisted. -/
theorem Apt.enum_not_validated (t d rb s : String)
    (db : List Apt.TicketDoc) (nid : String) (now : Nat) :
    (Apt.mkMaintenanceRequest
        ⟨some t, some d, none, some s, none, some rb, none, none, none⟩ =
      some ⟨t, d, none, s, "medium", rb, none, none, none⟩) ∧
    (Apt.create_ticket db
        ⟨some t, some d, none, some s, none, some rb, none, none, none⟩
        nid now =
      some (db ++ [⟨nid, ⟨t, d, none, s, "medium", rb, none, none, none⟩,
        now, none⟩], nid)) ∧
    (Apt.mkMaintenanceRequest
        ⟨none, some d, none, some s, none, some rb, none, none, none⟩ =
      none) := by
  exact ⟨rfl, rfl, rfl⟩

/-- A BSON-ish value for complaint documents, where field *presence*
matters (dict `pop` removes the key, while a `None` value is stored as
null). -/
inductive Apt.BVal where
  | s : String → Apt.BVal
  | b : Bool → Apt.BVal
  | null : Apt.BVal
deriving DecidableEq, Repr

/-- Render an optional string the way `model_dump` does: null when absent. -/
def Apt.optVal : Option String → Apt.BVal
  | some v => .s v
  | none => .null

/-- `schemas.py` `Complaint`: message required; anonymous defaults to
false, status to "open"; user_email and response optional. -/
structure Apt.Complaint where
  message : String
  anonymous : Bool
  user_email : Option String
  status : String
  response : Option String
deriving DecidableEq, Repr

/-- Pydantic `model_dump` of a `Complaint`: all five fields as a dict. -/
def Apt.Complaint.model_dump (c : Apt.Complaint) :
    List (String × Apt.BVal) :=
  [("message", .s c.message), ("anonymous", .b c.anonymous),
   ("user_email", Apt.optVal c.user_email), ("status", .s c.status),
   ("response", Apt.optVal c.response)]

/-- `main.py` `create_complaint`: when `anonymous` is true, dump the model
and `pop` the `user_email` key before persisting; otherwise persist the
full model.  (`create_document` inserts the document; its id/timestamp
assignment does not affect the fields below.) -/
def Apt.create_complaint (db : List (List (String × Apt.BVal)))
    (c : Apt.Complaint) : List (List (String × Apt.BVal)) :=
  if c.anonymous then
    db ++ [(Apt.Complaint.model_dump c).filter
      (fun kv => !(kv.1 == "user_email"))]
  else db ++ [Apt.Complaint.model_dump c]

/-- `main.py` `list_complaints`: optional equality filter on `status`. -/
def Apt.list_complaints (db : List (List (String × Apt.BVal)))
    (status : Option String) : List (List (String × Apt.BVal)) :=
  db.filter (fun doc => match status with
    | none => true
    | some s => doc.lookup "status" == some (.s s))

/-- C4: creating a complaint with `anonymous = true` persists exactly one
new document, and that document has no `user_email` key at all — the email
from the request is never written. -/
theorem Apt.create_complaint_strips_email
    (db : List (List (String × Apt.BVal))) (c : Apt.Complaint)
    (h : c.anonymous = true) :
    ∃ doc, Apt.create_complaint db c = db ++ [doc] ∧
      doc.lookup "user_email" = none ∧ ∀ kv ∈ doc, kv.1 ≠ "user_email" := by
  refine ⟨(Apt.Complaint.model_dump c).filter
      (fun kv => !(kv.1 == "user_email")), ?_, ?_, ?_⟩
  · simp [Apt.create_complaint, h]
  · simp [Apt.Complaint.model_dump, List.lookup]
  · intro kv hkv
    have := (List.mem_filter.mp hkv).2
    simpa using this

/-- C4 witness: the anonymous complaint with email "ann@x.com" is stored
without a `user_email` key. -/
theorem Apt.create_complaint_strips_email_witness :
    ∃ doc, Apt.create_complaint []
        ⟨"Noise at night", true, some "ann@x.com", "open", none⟩ =
      [] ++ [doc] ∧
      doc.lookup "user_email" = none ∧ ∀ kv ∈ doc, kv.1 ≠ "user_email" :=
  Apt.create_complaint_strips_email []
    ⟨"Noise at night", true, some "ann@x.com", "open", none⟩ rfl

/-- C8 counterexample: the valid complaint input (message "Noise at
night", anonymous true, user_email "ann@x.com", status "open") is created
and then listed by its status filter, but the returned record does not
carry the input's `user_email` — the exact round-trip claim fails on
anonymous complaints. -/
theorem Apt.roundtrip_cex :
    (⟨"Noise at night", true, some "ann@x.com", "open", none⟩ :
        Apt.Complaint).user_email = some "ann@x.com" ∧
    Apt.list_complaints
        (Apt.create_complaint []
          ⟨"Noise at night", true, some "ann@x.com", "open", none⟩)
        (some "open") =
      [[("message", .s "Noise at night"), ("anonymous", .b true),
        ("status", .s "open"), ("response", .null)]] ∧
    ∀ doc ∈ Apt.list_complaints
        (Apt.create_complaint []
          ⟨"Noise at night", true, some "ann@x.com", "open", none⟩)
        (some "open"),
      ¬ doc.lookup "user_email" = some (Apt.BVal.s "ann@x.com") := by
  refine ⟨rfl, by decide, by decide⟩

/-- C8 (amended): create-then-list-by-filter returns a record matching
every input field for maintenance tickets, and for complaints whenever
`anonymous = false`; an anonymous complaint is the exception — its
`user_email` is stripped before persistence. -/
theorem Apt.roundtrip_amended (db : List Apt.TicketDoc)
    (t : Apt.MaintenanceRequest) (nid : String) (now : Nat)
    (cdb : List (List (String × Apt.BVal))) (c : Apt.Complaint) :
    (∃ d ∈ Apt.list_tickets (Apt.create_document_ticket db t nid now)
        (some t.status) (some t.requested_by), d.ticket = t) ∧
    (c.anonymous = false →
      Apt.Complaint.model_dump c ∈
        Apt.list_complaints (Apt.create_complaint cdb c) (some c.status)) := by
  constructor
  · refine ⟨⟨nid, t, now, none⟩, ?_, rfl⟩
    unfold Apt.list_tickets Apt.create_document_ticket
    apply List.mem_filter.mpr
    exact ⟨List.mem_append_right _ (List.mem_singleton.mpr rfl), by simp⟩
  · intro h
    unfold Apt.list_complaints
    apply List.mem_filter.mpr
    constructor
    · unfold Apt.create_complaint
      rw [h]
      simp
    · simp [Apt.Complaint.model_dump, List.lookup]

/-- C8 amended witness: a non-anonymous complaint round-trips with its
email intact. -/
theorem Apt.roundtrip_amended_witness :
    Apt.Complaint.model_dump
        ⟨"Lift broken", false, some "bob@x.com", "open", none⟩ ∈
      Apt.list_complaints
        (Apt.create_complaint []
          ⟨"Lift broken", false, some "bob@x.com", "open", none⟩)
        (some "open") :=
  (Apt.roundtrip_amended []
      ⟨"t", "d", none, "open", "medium", "r", none, none, none⟩ "x" 0 []
      ⟨"Lift broken", false, some "bob@x.com", "open", none⟩).2 rfl

/-- A stored notice document: the `schemas.py` `Notice` fields plus the
creation timestamp assigned by the persistence gateway (modelled from the
spec: `create_document` assigns it; `Notice` itself has no such field). -/
structure Apt.NoticeDoc where
  title : String
  body : String
  tags : Option (List String)
  attachments : Option (List String)
  posted_by : String
  pinned : Bool
  language : Option String
  created_at : Nat
deriving DecidableEq, Repr

/-- The Mongo filter of `list_notices` in `main.py`:
`{"pinned": {"$in": [True, False]}}` (matched by every stored notice) plus,
when a tag is given, `{"tags": {"$in": [tag]}}` (the array field contains
the tag; an absent or null array matches nothing). -/
def Apt.noticePred (tag : Option String) (n : Apt.NoticeDoc) : Bool :=
  (n.pinned == true || n.pinned == false) &&
    (match tag with
     | none => true
     | some t =>
         match n.tags with
         | some ts => ts.contains t
         | none => false)

/-- Insert into a list already sorted by `created_at` descending, placing
the inserted (originally earlier) element before later elements with an
equal key — the stable behaviour of Python `list.sort(..., reverse=True)`. -/
def Apt.insertDesc (x : Apt.NoticeDoc) :
    List Apt.NoticeDoc → List Apt.NoticeDoc
  | [] => [x]
  | y :: ys =>
      if y.created_at ≤ x.created_at then x :: y :: ys
      else y :: Apt.insertDesc x ys

/-- Stable sort by `created_at` descending, modelling
`items.sort(key=lambda i: i.get("created_at", datetime.min), reverse=True)`
(any two stable sorts over the same key agree). -/
def Apt.sortByCreatedDesc : List Apt.NoticeDoc → List Apt.NoticeDoc
  | [] => []
  | x :: xs => Apt.insertDesc x (Apt.sortByCreatedDesc xs)

/-- `main.py` `list_notices`: query with the pinned/tag filter, then sort
newest first. -/
def Apt.list_notices (db : List Apt.NoticeDoc) (tag : Option String) :
    List Apt.NoticeDoc :=
  Apt.sortByCreatedDesc (db.filter (Apt.noticePred tag))

theorem Apt.mem_insertDesc (x y : Apt.NoticeDoc) (l : List Apt.NoticeDoc) :
    y ∈ Apt.insertDesc x l ↔ y = x ∨ y ∈ l := by
  induction l with
  | nil => simp [Apt.insertDesc]
  | cons z zs ih =>
      by_cases h : z.created_at ≤ x.created_at
      · simp [Apt.insertDesc, h]
      · simp only [Apt.insertDesc, if_neg h, List.mem_cons, ih]
        tauto

theorem Apt.pairwise_insertDesc (x : Apt.NoticeDoc)
    (l : List Apt.NoticeDoc)
    (h : l.Pairwise (fun a b => b.created_at ≤ a.created_at)) :
    (Apt.insertDesc x l).Pairwise
      (fun a b => b.created_at ≤ a.created_at) := by
  induction l with
  | nil => simp [Apt.insertDesc]
  | cons z zs ih =>
      rcases List.pairwise_cons.mp h with ⟨hz, hzs⟩
      by_cases hc : z.created_at ≤ x.created_at
      · rw [Apt.insertDesc, if_pos hc]
        refine List.pairwise_cons.mpr ⟨?_, h⟩
        intro b hb
        rcases List.mem_cons.mp hb with rfl | hb2
        · exact hc
        · exact le_trans (hz b hb2) hc
      · rw [Apt.insertDesc, if_neg hc]
        refine List.pairwise_cons.mpr ⟨?_, ih hzs⟩
        intro b hb
        rcases (Apt.mem_insertDesc x b zs).mp hb with rfl | hb2
        · omega
        · exact hz b hb2

theorem Apt.insertDesc_perm (x : Apt.NoticeDoc) (l : List Apt.NoticeDoc) :
    (Apt.insertDesc x l).Perm (x :: l) := by
  induction l with
  | nil => simp [Apt.insertDesc]
  | cons z zs ih =>
      by_cases hc : z.created_at ≤ x.created_at
      · rw [Apt.insertDesc, if_pos hc]
      · rw [Apt.insertDesc, if_neg hc]
        exact (ih.cons z).trans (List.Perm.swap x z zs)

theorem Apt.sortByCreatedDesc_pairwise (l : List Apt.NoticeDoc) :
    (Apt.sortByCreatedDesc l).Pairwise
      (fun a b => b.created_at ≤ a.created_at) := by
  induction l with
  | nil => simp [Apt.sortByCreatedDesc]
  | cons x xs ih => exact Apt.pairwise_insertDesc x _ ih

theorem Apt.sortByCreatedDesc_perm (l : List Apt.NoticeDoc) :
    (Apt.sortByCreatedDesc l).Perm l := by
  induction l with
  | nil => simp [Apt.sortByCreatedDesc]
  | cons x xs ih => exact (Apt.insertDesc_perm x _).trans (ih.cons x)

/-- C7: `list_notices` returns exactly the filtered notices ordered by
`created_at` descending — in general the output is a permutation of the
filter sorted newest-first, and for three stored notices created at times
t1 < t2 < t3 the listing is [n3, n2, n1]. -/
theorem Apt.list_notices_newest_first (db : List Apt.NoticeDoc)
    (tag : Option String) (n1 n2 n3 : Apt.NoticeDoc)
    (h12 : n1.created_at < n2.created_at)
    (h23 : n2.created_at < n3.created_at) :
    (Apt.list_notices db tag).Pairwise
      (fun a b => b.created_at ≤ a.created_at) ∧
    (Apt.list_notices db tag).Perm (db.filter (Apt.noticePred tag)) ∧
    Apt.list_notices [n1, n2, n3] none = [n3, n2, n1] := by
  have hp : ∀ n : Apt.NoticeDoc, Apt.noticePred none n = true := by
    intro n
    cases h : n.pinned <;> simp [Apt.noticePred, h]
  refine ⟨Apt.sortByCreatedDesc_pairwise _, Apt.sortByCreatedDesc_perm _, ?_⟩
  have hA : ¬ (n3.created_at ≤ n2.created_at) := by omega
  have hB : ¬ (n3.created_at ≤ n1.created_at) := by omega
  have hC : ¬ (n2.created_at ≤ n1.created_at) := by omega
  simp [Apt.list_notices, List.filter, hp, Apt.sortByCreatedDesc,
    Apt.insertDesc, hA, hB, hC]

/-- C7 witness: three concrete notices created at times 1 < 2 < 3 are
listed newest first. -/
theorem Apt.list_notices_newest_first_witness :
    Apt.list_notices
        [⟨"a", "A", none, none, "admin", false, some "en", 1⟩,
         ⟨"b", "B", none, none, "admin", false, some "en", 2⟩,
         ⟨"c", "C", none, none, "admin", true, some "en", 3⟩] none =
      [⟨"c", "C", none, none, "admin", true, some "en", 3⟩,
       ⟨"b", "B", none, none, "admin", false, some "en", 2⟩,
       ⟨"a", "A", none, none, "admin", false, some "en", 1⟩] :=
  (Apt.list_notices_newest_first [] none
      ⟨"a", "A", none, none, "admin", false, some "en", 1⟩
      ⟨"b", "B", none, none, "admin", false, some "en", 2⟩
      ⟨"c", "C", none, none, "admin", true, some "en", 3⟩
      (by decide) (by decide)).2.2
